import Mathlib

/-!
Verification of the AeroSense air-quality dashboard (`app.py` and its
notebook checkpoint variant).  Numeric values (Python floats and ints)
are embedded as rationals `ℚ`; fallible Python code is embedded as
`Except`/`Option`; the Streamlit render of one page is embedded as a
pure function from the page's inputs to the values it displays.
-/

namespace AeroSense

/-- Modelled from the spec: the sub-index scaling helper is code of this
repository that is not under `src/` (no `scale` definition appears in
`app.py` or the checkpoint).  Per the spec it computes the linearly
interpolated sub-index using the standard AQI piecewise-linear formula
`index = (value - C_low) / (C_high - C_low) * (I_high - I_low) + I_low`. -/
def scale (value c_low c_high i_low i_high : ℚ) : ℚ :=
  (value - c_low) / (c_high - c_low) * (i_high - i_low) + i_low

/-- Modelled from the spec: the run-time behaviour of the helper in Python,
where the division is unguarded, so `C_high == C_low` raises
`ZeroDivisionError` and every other call returns the interpolated value. -/
def scaleRun (value c_low c_high i_low i_high : ℚ) : Except String ℚ :=
  if c_high = c_low then Except.error "ZeroDivisionError"
  else Except.ok (scale value c_low c_high i_low i_high)

/-- Modelled from the spec: the single branch that invokes the scaling
helper computes the PM2.5 sub-index and then renders its output without
the computed sub-index.  The branch is parametrised by the helper used;
it returns the list of helper results computed and the list of values
actually displayed. -/
def pm25SubIndexBranchWith (helper : ℚ → ℚ → ℚ → ℚ → ℚ → ℚ) (pm25 : ℚ) :
    List ℚ × List ℚ :=
  let subIndex := helper pm25 0 12 0 50
  ([subIndex], [pm25])

/-- The branch as wired in the repository, using the scaling helper. -/
def pm25SubIndexBranch (pm25 : ℚ) : List ℚ × List ℚ :=
  pm25SubIndexBranchWith scale pm25

/-- A JSON value, as returned by `response.json()` in the Real-Time AQI
branch of `app.py`. -/
inductive Json where
  | null : Json
  | bool (b : Bool) : Json
  | num (q : ℚ) : Json
  | str (s : String) : Json
  | arr (xs : List Json) : Json
  | obj (kvs : List (String × Json)) : Json

/-- Whether `p` occurs as a contiguous run inside `l`: the substring test
performed by Python's `"data" in data` when `data` is a string. -/
def listIsInfix (p l : List Char) : Bool :=
  match l with
  | [] => p == []
  | _ :: t => p.isPrefixOf l || listIsInfix p t

/-- Python equality of a JSON value with the string `"data"`, as used by
`"data" in data` when `data` is a list: only a string element equal to
`"data"` matches. -/
def Json.isDataString : Json → Bool
  | .str s => s == "data"
  | _ => false

/-- What the Real-Time AQI branch renders: a success box with the city and
the fetched `aqi` value, or the user-facing "not found" error message. -/
inductive RTDisplay where
  | aqiShown (city : String) (aqi : Json) : RTDisplay
  | notFound : RTDisplay

/-- The Real-Time AQI branch of `app.py` (lines 364-377): after the GET,
`if "data" in data:` displays `data['data']['aqi']`, else shows the
"not found" error.  Python's semantics per body shape: on a dict,
`"data" in data` is key membership, then the unguarded `['data']['aqi']`
raises `KeyError` when the `data` member is a dict lacking `aqi` and
`TypeError` when it is not a dict; on a string, `in` is a substring test
and a hit still faults at the subscript (`TypeError`); on a list, `in`
is element membership and a hit faults at the subscript (`TypeError`);
on any other value (number, bool, null) the membership test itself
raises `TypeError`. -/
def realTimeBranch (city : String) (body : Json) : Except String RTDisplay :=
  match body with
  | Json.obj kvs =>
      match kvs.lookup "data" with
      | some (Json.obj dkvs) =>
          match dkvs.lookup "aqi" with
          | some v => Except.ok (RTDisplay.aqiShown city v)
          | none => Except.error "KeyError"
      | some _ => Except.error "TypeError"
      | none => Except.ok RTDisplay.notFound
  | Json.str s =>
      if listIsInfix "data".toList s.toList then Except.error "TypeError"
      else Except.ok RTDisplay.notFound
  | Json.arr xs =>
      if xs.any Json.isDataString then Except.error "TypeError"
      else Except.ok RTDisplay.notFound
  | _ => Except.error "TypeError"

/-- The result of a successful geocoding lookup (`geolocator.geocode`). -/
structure GeoLocation where
  latitude : ℚ
  longitude : ℚ
  address : String

/-- `get_location` from `app.py` (lines 267-273): the geocoder outcome is
`some loc` when the place is found and `none` otherwise; the function
returns a triple in both cases, with `(None, None, "Location not found")`
on failure. -/
def get_location (geocodeResult : Option GeoLocation) :
    Option ℚ × Option ℚ × String :=
  match geocodeResult with
  | some loc => (some loc.latitude, some loc.longitude, loc.address)
  | none => (none, none, "Location not found")

/-- The loaded regression model artifact: a fixed-length numeric feature
vector in, a single numeric prediction out. -/
structure ModelArtifact where
  predict : List ℚ → ℚ

/-- The top of the `app.py` script: `model = joblib.load('aqi_model.pkl')`
(line 221) runs before any page renders and has no error handling, so a
failed load aborts the render cycle before the page render function is
ever applied. -/
def appScript (loadResult : Except String ModelArtifact)
    (renderPage : ModelArtifact → List String) : Except String (List String) :=
  match loadResult with
  | Except.ok m => Except.ok (renderPage m)
  | Except.error e => Except.error e

/-- A Streamlit `st.number_input(label, lo, hi, dflt)` widget: the widget
itself constrains the submitted value to `[lo, hi]`, embedded as clamping
the user's value into the range. -/
def number_input (lo hi _dflt userVal : ℚ) : ℚ :=
  max lo (min hi userVal)

/-- The feature vector built by the AQI Prediction branch of `app.py`
(line 359): `np.array([pm25, pm10, no, no2, so2, o3]).reshape(1, -1)`. -/
def predictionFeatures (pm25 pm10 no no2 so2 o3 : ℚ) : List ℚ :=
  [pm25, pm10, no, no2, so2, o3]

/-- The AQI Prediction branch (lines 349-361): six bounded number inputs
feed the feature vector passed to `model.predict`. -/
def aqiPredictionFeatures (u1 u2 u3 u4 u5 u6 : ℚ) : List ℚ :=
  predictionFeatures (number_input 0 500 50 u1) (number_input 0 500 100 u2)
    (number_input 0 200 5 u3) (number_input 0 200 10 u4)
    (number_input 0 50 10 u5) (number_input 0 300 50 u6)

/-- `load_data` from `app.py` (lines 517-532): reads
`historical_aqi_data.csv`; on `FileNotFoundError` it builds
`date_range = [datetime(2024,1,1,0) + timedelta(hours=i) for i in range(90*24)]`
with `np.random.randint(80, 300)` AQI values and writes the table back.
Timestamps are embedded as whole hours since 2024-01-01 00:00, the file
as `Option` over its rows, and the random source as a function `rand`
(`80 + rand i % 220` ranges over `[80, 300)` exactly as `randint`).
Returns the loaded dataframe and the resulting file state. -/
def load_data (rand : ℕ → ℕ) (file : Option (List (ℕ × ℕ))) :
    List (ℕ × ℕ) × Option (List (ℕ × ℕ)) :=
  match file with
  | some df => (df, some df)
  | none =>
      let df := (List.range (90 * 24)).map (fun i => (i, 80 + rand i % 220))
      (df, some df)

/-- The window that `pandas` `Series.rolling(window=24, min_periods=1)`
aggregates at row `i` of the Hourly AQI Trends branch (checkpoint lines
142-149): the up-to-24 entries ending at index `i`. -/
def rollingWindow (xs : List ℚ) (i : ℕ) : List ℚ :=
  (xs.drop (i + 1 - 24)).take (min (i + 1) 24)

/-- Arithmetic mean of a list of rationals (`0` on the empty list, which
`pandas` would report as missing; `min_periods=1` keeps every window
nonempty here). -/
def listMean (xs : List ℚ) : ℚ :=
  xs.sum / xs.length

/-- `aqi_df['aqi'].rolling(window=24, min_periods=1).mean()` at row `i`. -/
def rollingAvg (xs : List ℚ) (i : ℕ) : ℚ :=
  listMean (rollingWindow xs i)

/-- Minimum of a list of rationals (`0` on the empty list). -/
def listMinD : List ℚ → ℚ
  | [] => 0
  | x :: t => t.foldl min x

/-- Maximum of a list of rationals (`0` on the empty list). -/
def listMaxD : List ℚ → ℚ
  | [] => 0
  | x :: t => t.foldl max x

/-- C1: the sub-index scaling helper is exactly the AQI piecewise-linear
interpolation formula; it fixes the endpoints, maps the midpoint of the
concentration range to the midpoint of the index range, and
`scale 6 0 12 0 50 = 25`. -/
theorem scale_formula_and_endpoints (value c_low c_high i_low i_high : ℚ)
    (h : c_high ≠ c_low) :
    scale value c_low c_high i_low i_high =
      (value - c_low) / (c_high - c_low) * (i_high - i_low) + i_low ∧
    scale c_low c_low c_high i_low i_high = i_low ∧
    scale c_high c_low c_high i_low i_high = i_high ∧
    scale ((c_low + c_high) / 2) c_low c_high i_low i_high =
      (i_low + i_high) / 2 ∧
    scale 6 0 12 0 50 = 25 := by
  have hne : c_high - c_low ≠ 0 := sub_ne_zero.mpr h
  refine ⟨rfl, ?_, ?_, ?_, by norm_num [scale]⟩
  · simp [scale]
  · simp [scale, div_self hne]
  · unfold scale
    field_simp
    ring

/-- Witness for C1 at the concrete breakpoint range `[0, 12] → [0, 50]`. -/
theorem scale_formula_and_endpoints_witness :
    scale 6 0 12 0 50 = 25 := by
  have h : (12 : ℚ) ≠ 0 := by norm_num
  exact (scale_formula_and_endpoints 6 0 12 0 50 h).2.2.2.2

/-- C2: the helper raises (division by zero) exactly when
`C_high == C_low`; under the precondition `C_high ≠ C_low` the failure
branch is unreachable and the interpolated value is returned. -/
theorem scaleRun_zero_width_fails (value c_low i_low i_high : ℚ) :
    scaleRun value c_low c_low i_low i_high = Except.error "ZeroDivisionError" ∧
    ∀ c_high : ℚ, c_high ≠ c_low →
      scaleRun value c_low c_high i_low i_high =
        Except.ok (scale value c_low c_high i_low i_high) := by
  constructor
  · simp [scaleRun]
  · intro c_high hne
    simp [scaleRun, hne]

/-- Witness for C2 at the concrete inputs `value = 5, C_low = 3` (failing)
and `C_high = 7` (succeeding). -/
theorem scaleRun_zero_width_fails_witness :
    scaleRun 5 3 3 0 50 = Except.error "ZeroDivisionError" ∧
    scaleRun 5 3 7 0 50 = Except.ok (scale 5 3 7 0 50) := by
  refine ⟨(scaleRun_zero_width_fails 5 3 0 50).1, ?_⟩
  exact (scaleRun_zero_width_fails 5 3 0 50).2 7 (by norm_num)

/-- C3: with a positive-width concentration range and a nondecreasing index
range, the helper is monotonic in its first argument. -/
theorem scale_monotone (c_low c_high i_low i_high v1 v2 : ℚ)
    (hc : c_low < c_high) (hi : i_low ≤ i_high) (hv : v1 ≤ v2) :
    scale v1 c_low c_high i_low i_high ≤ scale v2 c_low c_high i_low i_high := by
  unfold scale
  have hpos : (0 : ℚ) < c_high - c_low := sub_pos.mpr hc
  have hnn : (0 : ℚ) ≤ i_high - i_low := sub_nonneg.mpr hi
  have hdiv : (v1 - c_low) / (c_high - c_low) ≤ (v2 - c_low) / (c_high - c_low) :=
    (div_le_div_iff_of_pos_right hpos).mpr (sub_le_sub_right hv c_low)
  have := mul_le_mul_of_nonneg_right hdiv hnn
  linarith

/-- Witness for C3 at `v1 = 2 ≤ v2 = 9` on the range `[0, 12] → [0, 50]`. -/
theorem scale_monotone_witness :
    scale 2 0 12 0 50 ≤ scale 9 0 12 0 50 := by
  exact scale_monotone 0 12 0 50 2 9 (by norm_num) (by norm_num) (by norm_num)

/-- C8: the scaling helper is invoked exactly once (for PM2.5) in the one
branch that uses it, and the displayed output of that branch is the same
for every choice of helper: the computed sub-index never affects what is
shown. -/
theorem pm25SubIndex_dead_logic (pm25 : ℚ) :
    (pm25SubIndexBranch pm25).1.length = 1 ∧
    (pm25SubIndexBranch pm25).1 = [scale pm25 0 12 0 50] ∧
    ∀ f g : ℚ → ℚ → ℚ → ℚ → ℚ → ℚ,
      (pm25SubIndexBranchWith f pm25).2 = (pm25SubIndexBranchWith g pm25).2 := by
  refine ⟨rfl, rfl, fun f g => rfl⟩

/-- C4 counterexample: a response body that has a `data` key whose value
lacks an `aqi` field is not treated as "not found" — the branch raises an
uncaught `KeyError` instead of showing the user-facing error message. -/
theorem realTime_missing_aqi_raises :
    realTimeBranch "Delhi" (Json.obj [("data", Json.obj [])]) =
      Except.error "KeyError" ∧
    realTimeBranch "Delhi" (Json.obj [("data", Json.obj [])]) ≠
      Except.ok RTDisplay.notFound := by
  exact ⟨rfl, by intro h; exact Except.noConfusion h⟩

/-- C4 amended: when the body is a JSON object, a `data` member that is an
object containing `aqi` gets the aqi value displayed, a body without a
`data` key shows the "not found" message with no fault, and a `data`
member that is an object lacking `aqi` raises an uncaught `KeyError`
while a non-object `data` member raises an uncaught `TypeError`; when
the body is not an object, a number, boolean or null raises `TypeError`
at the membership test itself, and a string or array body raises
`TypeError` when the membership test hits (`"data"` a substring of the
string, or an element of the array) and shows "not found" otherwise. -/
theorem realTime_response_handling (city : String)
    (kvs : List (String × Json)) (s : String) (xs : List Json) (q : ℚ)
    (b : Bool) :
    (kvs.lookup "data" = none →
      realTimeBranch city (Json.obj kvs) = Except.ok RTDisplay.notFound) ∧
    (∀ dkvs v, kvs.lookup "data" = some (Json.obj dkvs) →
      dkvs.lookup "aqi" = some v →
      realTimeBranch city (Json.obj kvs) =
        Except.ok (RTDisplay.aqiShown city v)) ∧
    (∀ dkvs, kvs.lookup "data" = some (Json.obj dkvs) →
      dkvs.lookup "aqi" = none →
      realTimeBranch city (Json.obj kvs) = Except.error "KeyError") ∧
    (∀ d, kvs.lookup "data" = some d → (∀ dkvs, d ≠ Json.obj dkvs) →
      realTimeBranch city (Json.obj kvs) = Except.error "TypeError") ∧
    realTimeBranch city (Json.num q) = Except.error "TypeError" ∧
    realTimeBranch city (Json.bool b) = Except.error "TypeError" ∧
    realTimeBranch city Json.null = Except.error "TypeError" ∧
    (listIsInfix "data".toList s.toList = true →
      realTimeBranch city (Json.str s) = Except.error "TypeError") ∧
    (listIsInfix "data".toList s.toList = false →
      realTimeBranch city (Json.str s) = Except.ok RTDisplay.notFound) ∧
    (xs.any Json.isDataString = true →
      realTimeBranch city (Json.arr xs) = Except.error "TypeError") ∧
    (xs.any Json.isDataString = false →
      realTimeBranch city (Json.arr xs) = Except.ok RTDisplay.notFound) := by
  refine ⟨fun h => ?_, fun dkvs v hd hv => ?_, fun dkvs hd hv => ?_,
    fun d hd hne => ?_, rfl, rfl, rfl, fun h => ?_, fun h => ?_,
    fun h => ?_, fun h => ?_⟩
  · simp [realTimeBranch, h]
  · simp [realTimeBranch, hd, hv]
  · simp [realTimeBranch, hd, hv]
  · cases d with
    | obj dkvs => exact absurd rfl (hne dkvs)
    | null => simp [realTimeBranch, hd]
    | bool c => simp [realTimeBranch, hd]
    | num r => simp [realTimeBranch, hd]
    | str t => simp [realTimeBranch, hd]
    | arr ys => simp [realTimeBranch, hd]
  · simp [realTimeBranch]
    simpa using h
  · simp [realTimeBranch]
    simpa using h
  · simp [realTimeBranch, h]
  · simp [realTimeBranch, h]

/-- Witness for C4 amended at a body with no `data` key, a body with
`data.aqi` present, a scalar body, and a string body that passes the
membership test. -/
theorem realTime_response_handling_witness :
    realTimeBranch "Delhi" (Json.obj [("status", Json.str "error")]) =
      Except.ok RTDisplay.notFound ∧
    realTimeBranch "Delhi"
        (Json.obj [("data", Json.obj [("aqi", Json.num 42)])]) =
      Except.ok (RTDisplay.aqiShown "Delhi" (Json.num 42)) ∧
    realTimeBranch "Delhi" (Json.num 5) = Except.error "TypeError" ∧
    realTimeBranch "Delhi" (Json.str "no data here") =
      Except.error "TypeError" := by
  refine ⟨?_, ?_, ?_, ?_⟩
  · exact (realTime_response_handling "Delhi" [("status", Json.str "error")]
      "" [] 0 false).1 rfl
  · exact (realTime_response_handling "Delhi"
      [("data", Json.obj [("aqi", Json.num 42)])] "" [] 0 false).2.1
      [("aqi", Json.num 42)] (Json.num 42)
      (by simp [List.lookup]) (by simp [List.lookup])
  · exact (realTime_response_handling "Delhi" [] "" [] 5 false).2.2.2.2.1
  · exact (realTime_response_handling "Delhi" [] "no data here" [] 0
      false).2.2.2.2.2.2.2.1 (by decide)

set_option maxRecDepth 4000 in
/-- C5: with no backing file, `load_data` recovers rather than failing: it
returns a table of exactly `90 * 24` rows whose timestamp column is the
gap-free consecutive hourly sequence `0, 1, ..., 90*24 - 1` (hours since
2024-01-01 00:00), and writes that same table back to the file. -/
theorem load_data_missing_file_recovers (rand : ℕ → ℕ) :
    (load_data rand none).1.length = 90 * 24 ∧
    (load_data rand none).1.map Prod.fst = List.range (90 * 24) ∧
    (load_data rand none).2 = some (load_data rand none).1 := by
  have h : load_data rand none =
      ((List.range (90 * 24)).map (fun i => (i, 80 + rand i % 220)),
       some ((List.range (90 * 24)).map (fun i => (i, 80 + rand i % 220)))) := rfl
  rw [h]
  refine ⟨by simp, ?_, rfl⟩
  simp [List.map_map, Function.comp_def]

/-- C6: the feature vector passed to `model.predict` has exactly 6
components, in the fixed order PM2.5, PM10, NO, NO2, SO2, O3, and each
component lies within its declared widget bound. -/
theorem aqiPredictionFeatures_bounded (u1 u2 u3 u4 u5 u6 : ℚ) :
    (aqiPredictionFeatures u1 u2 u3 u4 u5 u6).length = 6 ∧
    aqiPredictionFeatures u1 u2 u3 u4 u5 u6 =
      [number_input 0 500 50 u1, number_input 0 500 100 u2,
       number_input 0 200 5 u3, number_input 0 200 10 u4,
       number_input 0 50 10 u5, number_input 0 300 50 u6] ∧
    (0 ≤ number_input 0 500 50 u1 ∧ number_input 0 500 50 u1 ≤ 500) ∧
    (0 ≤ number_input 0 500 100 u2 ∧ number_input 0 500 100 u2 ≤ 500) ∧
    (0 ≤ number_input 0 200 5 u3 ∧ number_input 0 200 5 u3 ≤ 200) ∧
    (0 ≤ number_input 0 200 10 u4 ∧ number_input 0 200 10 u4 ≤ 200) ∧
    (0 ≤ number_input 0 50 10 u5 ∧ number_input 0 50 10 u5 ≤ 50) ∧
    (0 ≤ number_input 0 300 50 u6 ∧ number_input 0 300 50 u6 ≤ 300) := by
  have hb : ∀ lo hi dflt u : ℚ, lo ≤ hi →
      lo ≤ number_input lo hi dflt u ∧ number_input lo hi dflt u ≤ hi := by
    intro lo hi dflt u hlh
    unfold number_input
    constructor
    · exact le_max_left lo (min hi u)
    · exact max_le hlh (min_le_left hi u)
  exact ⟨rfl, rfl, hb 0 500 50 u1 (by norm_num), hb 0 500 100 u2 (by norm_num),
    hb 0 200 5 u3 (by norm_num), hb 0 200 10 u4 (by norm_num),
    hb 0 50 10 u5 (by norm_num), hb 0 300 50 u6 (by norm_num)⟩

/-- C7: `get_location` returns a triple on every geocoder outcome: the
found location's coordinates and address on success, and exactly
`(None, None, "Location not found")` otherwise. -/
theorem get_location_total (g : Option GeoLocation) :
    (g = none → get_location g = (none, none, "Location not found")) ∧
    (∀ loc, g = some loc →
      get_location g = (some loc.latitude, some loc.longitude, loc.address)) := by
  refine ⟨fun h => ?_, fun loc h => ?_⟩
  · subst h; rfl
  · subst h; rfl

/-- Witness for C7 at the geocoder-failure outcome and at a concrete found
location. -/
theorem get_location_total_witness :
    get_location none = (none, none, "Location not found") ∧
    get_location (some ⟨(307 : ℚ) / 10, (767 : ℚ) / 10, "Chandigarh, India"⟩) =
      (some ((307 : ℚ) / 10), some ((767 : ℚ) / 10), "Chandigarh, India") := by
  constructor
  · exact (get_location_total none).1 rfl
  · exact (get_location_total
      (some ⟨(307 : ℚ) / 10, (767 : ℚ) / 10, "Chandigarh, India"⟩)).2 _ rfl

/-- C9: the model load at startup has no error handling: a failed load
propagates as the same uncaught fault, terminating the render cycle — no
page output is ever produced. -/
theorem appScript_model_load_unhandled (e : String)
    (renderPage : ModelArtifact → List String) :
    appScript (Except.error e) renderPage = Except.error e ∧
    ∀ out, appScript (Except.error e) renderPage ≠ Except.ok out := by
  refine ⟨rfl, fun out h => Except.noConfusion h⟩

/-- Folding `min` only lowers the accumulator. -/
lemma foldl_min_le_init (t : List ℚ) (x : ℚ) : t.foldl min x ≤ x := by
  induction t generalizing x with
  | nil => exact le_refl x
  | cons a t ih => exact le_trans (ih (min x a)) (min_le_left x a)

/-- The `min`-fold is a lower bound for every list element. -/
lemma foldl_min_le_mem (t : List ℚ) (x y : ℚ) (hy : y ∈ t) :
    t.foldl min x ≤ y := by
  induction t generalizing x with
  | nil => cases hy
  | cons a t ih =>
      rcases List.mem_cons.mp hy with h | h
      · subst h
        exact le_trans (foldl_min_le_init t (min x y)) (min_le_right x y)
      · exact ih (min x a) h

/-- `listMinD` is a lower bound for every element of the list. -/
lemma listMinD_le_mem (xs : List ℚ) (y : ℚ) (hy : y ∈ xs) :
    listMinD xs ≤ y := by
  cases xs with
  | nil => cases hy
  | cons a t =>
      rcases List.mem_cons.mp hy with h | h
      · subst h; exact foldl_min_le_init t y
      · exact foldl_min_le_mem t a y h

/-- Folding `max` only raises the accumulator. -/
lemma le_foldl_max_init (t : List ℚ) (x : ℚ) : x ≤ t.foldl max x := by
  induction t generalizing x with
  | nil => exact le_refl x
  | cons a t ih => exact le_trans (le_max_left x a) (ih (max x a))

/-- The `max`-fold is an upper bound for every list element. -/
lemma mem_le_foldl_max (t : List ℚ) (x y : ℚ) (hy : y ∈ t) :
    y ≤ t.foldl max x := by
  induction t generalizing x with
  | nil => cases hy
  | cons a t ih =>
      rcases List.mem_cons.mp hy with h | h
      · subst h
        exact le_trans (le_max_right x y) (le_foldl_max_init t (max x y))
      · exact ih (max x a) h

/-- `listMaxD` is an upper bound for every element of the list. -/
lemma mem_le_listMaxD (xs : List ℚ) (y : ℚ) (hy : y ∈ xs) :
    y ≤ listMaxD xs := by
  cases xs with
  | nil => cases hy
  | cons a t =>
      rcases List.mem_cons.mp hy with h | h
      · subst h; exact le_foldl_max_init t y
      · exact mem_le_foldl_max t a y h

/-- The mean of a nonempty list is at most any upper bound of the list. -/
lemma listMean_le_of_forall_le (xs : List ℚ) (m : ℚ) (hne : xs ≠ [])
    (h : ∀ x ∈ xs, x ≤ m) : listMean xs ≤ m := by
  have hlen : 0 < xs.length := List.length_pos.mpr hne
  have hlenq : (0 : ℚ) < (xs.length : ℚ) := by exact_mod_cast hlen
  have hsum : xs.sum ≤ xs.length • m := List.sum_le_card_nsmul xs m h
  rw [nsmul_eq_mul] at hsum
  unfold listMean
  rw [div_le_iff₀ hlenq]
  linarith

/-- The mean of a nonempty list is at least any lower bound of the list. -/
lemma le_listMean_of_forall_le (xs : List ℚ) (m : ℚ) (hne : xs ≠ [])
    (h : ∀ x ∈ xs, m ≤ x) : m ≤ listMean xs := by
  have hlen : 0 < xs.length := List.length_pos.mpr hne
  have hlenq : (0 : ℚ) < (xs.length : ℚ) := by exact_mod_cast hlen
  have hsum : xs.length • m ≤ xs.sum := List.card_nsmul_le_sum xs m h
  rw [nsmul_eq_mul] at hsum
  unfold listMean
  rw [le_div_iff₀ hlenq]
  linarith

/-- Every rolling window at a valid row is nonempty. -/
lemma rollingWindow_ne_nil (xs : List ℚ) (i : ℕ) (hi : i < xs.length) :
    rollingWindow xs i ≠ [] := by
  rw [← List.length_pos]
  unfold rollingWindow
  rw [List.length_take, List.length_drop]
  have h1 : 0 < min (i + 1) 24 := by omega
  have h2 : i + 1 - 24 < xs.length := by omega
  omega

/-- Every element of a rolling window is an element of the series. -/
lemma mem_of_mem_rollingWindow (xs : List ℚ) (i : ℕ) (y : ℚ)
    (hy : y ∈ rollingWindow xs i) : y ∈ xs := by
  unfold rollingWindow at hy
  exact List.mem_of_mem_drop (List.mem_of_mem_take hy)

/-- C10: with `min_periods=1`, the 24-sample rolling average of the AQI
series is defined at every row (its window is nonempty), and every
rolling-average value lies between the minimum and the maximum of its
window, hence between the series minimum and maximum. -/
theorem rollingAvg_defined_and_bounded (xs : List ℚ) (i : ℕ)
    (hi : i < xs.length) :
    rollingWindow xs i ≠ [] ∧
    listMinD (rollingWindow xs i) ≤ rollingAvg xs i ∧
    rollingAvg xs i ≤ listMaxD (rollingWindow xs i) ∧
    listMinD xs ≤ rollingAvg xs i ∧
    rollingAvg xs i ≤ listMaxD xs := by
  have hne : rollingWindow xs i ≠ [] := rollingWindow_ne_nil xs i hi
  refine ⟨hne, ?_, ?_, ?_, ?_⟩
  · exact le_listMean_of_forall_le _ _ hne
      (fun x hx => listMinD_le_mem _ x hx)
  · exact listMean_le_of_forall_le _ _ hne
      (fun x hx => mem_le_listMaxD _ x hx)
  · exact le_listMean_of_forall_le _ _ hne
      (fun x hx => listMinD_le_mem xs x (mem_of_mem_rollingWindow xs i x hx))
  · exact listMean_le_of_forall_le _ _ hne
      (fun x hx => mem_le_listMaxD xs x (mem_of_mem_rollingWindow xs i x hx))

/-- Witness for C10 on the concrete series `[3, 1, 2]` at row `1`. -/
theorem rollingAvg_defined_and_bounded_witness :
    (1 : ℕ) < ([3, 1, 2] : List ℚ).length ∧
    (rollingWindow [3, 1, 2] 1 ≠ [] ∧
     listMinD (rollingWindow [3, 1, 2] 1) ≤ rollingAvg [3, 1, 2] 1 ∧
     rollingAvg [3, 1, 2] 1 ≤ listMaxD (rollingWindow [3, 1, 2] 1) ∧
     listMinD [3, 1, 2] ≤ rollingAvg [3, 1, 2] 1 ∧
     rollingAvg [3, 1, 2] 1 ≤ listMaxD [3, 1, 2]) :=
  ⟨by decide, rollingAvg_defined_and_bounded [3, 1, 2] 1 (by decide)⟩

end AeroSense
